import Mathlib

/-!
Shallow embedding of the task-scheduling engine of clash-nyanpasu
(`backend/tauri/src/tasks/task.rs`), together with theorems checking the
natural-language specification against it.

Modelling conventions:
* Rust `u64` task ids become `Nat`; `chrono` timestamps (`i64` seconds)
  become `Int`.
* `std::time::Duration` is a pair of whole seconds and sub-second
  nanoseconds; `as_secs` drops the fractional part, exactly as in Rust.
* Calls to `Utc::now().timestamp()` are modelled by an explicit `now`
  parameter threaded into each operation that reads the clock.
* The in-place mutation of the `RwLock`-guarded task vector is modelled by
  explicit state passing: an operation takes the task list and returns the
  new list, or `Except.error` when the Rust function returns `Err` without
  having mutated anything (which is the case for every `Err` path of
  `set_task_state` and `add_task`).
* The logging macro `error!` is modelled by returning the list of emitted
  log lines.
* The external `delay_timer` crate (timer-task builder, scheduler) is not
  repository code; its effects are parameters: `spawn` stands for
  `TaskBuilder::spawn_routine` / `spawn_async_routine` and `timer_add`
  for `DelayTimer::add_task`, each free to fail.
-/

set_option autoImplicit false

deriving instance DecidableEq for Except

namespace Nyanpasu

/-- Task identifier, `pub type TaskID = u64`. -/
abbrev TaskID := Nat

/-- Unix timestamp in seconds, `pub type Timestamp = i64`. -/
abbrev Timestamp := Int

/-- Lifecycle state of a task (`enum TaskState`). -/
inductive TaskState where
  | Cancelled
  | Idle
  | Running
deriving DecidableEq

/-- Outcome of a completed run (`enum TaskRunResult`). -/
inductive TaskRunResult where
  | Ok
  | Err (msg : String)
deriving DecidableEq

/-- Model of `std::time::Duration`: whole seconds plus sub-second
nanoseconds. The constructors below keep `nanos < 10^9` as in Rust. -/
structure Duration where
  secs : Nat
  nanos : Nat
deriving DecidableEq

/-- Rust `Duration::as_secs`: the whole-second part only. -/
def Duration.as_secs (d : Duration) : Nat := d.secs

/-- Rust `Duration::from_secs`. -/
def Duration.from_secs (n : Nat) : Duration := ⟨n, 0⟩

/-- Rust `Duration::from_millis`. -/
def Duration.from_millis (n : Nat) : Duration := ⟨n / 1000, n % 1000 * 1000000⟩

/-- When a task fires (`enum TaskSchedule`). -/
inductive TaskSchedule where
  | Once (d : Duration)
  | Interval (d : Duration)
  | Cron (expr : String)
deriving DecidableEq

/-- Modelled from the spec (the `executor` module is not part of the given
sources): a synchronous `Job` "exposes an `execute` operation returning
`Result<(), Error>`"; the job is a capability value, so it is modelled by
the outcome its `execute` produces when this firing invokes it. -/
structure Job where
  outcome : Except String Unit
deriving DecidableEq

/-- Modelled from the spec: `execute() -> Result<(), Error>`. -/
def Job.execute (j : Job) : Except String Unit := j.outcome

/-- Modelled from the spec: an asynchronous job, same contract as `Job`. -/
structure AsyncJob where
  outcome : Except String Unit
deriving DecidableEq

/-- Modelled from the spec: a unit of work "polymorphic over
`{Sync, Async}`" (`enum TaskExecutor` of the missing `executor` module). -/
inductive TaskExecutor where
  | Sync (job : Job)
  | Async (job : AsyncJob)
deriving DecidableEq

/-- The registry record for one task (`struct Task`). -/
structure Task where
  id : TaskID
  name : String
  schedule : TaskSchedule
  state : TaskState
  last_run : Option (Timestamp × TaskRunResult)
  next_run : Option Timestamp
  executor : TaskExecutor
  created_at : Timestamp
deriving DecidableEq

/-- The frequency a `delay_timer` `TaskBuilder` is configured with; records
which `set_frequency_*` call `build_task` makes and with what argument. -/
inductive Frequency where
  | CandyRepeated (cron : String)
  | RepeatedSeconds (secs : Nat)
  | OnceSeconds (secs : Nat)
  | Unset
deriving DecidableEq

/-- The observable configuration `build_task` puts on the `delay_timer`
`TaskBuilder` before handing it to `spawn_routine`. -/
structure TimerTaskBuilder where
  task_id : TaskID
  frequency : Frequency
  maximum_parallel_runnable_num : Option Nat
deriving DecidableEq

/-- Opaque stand-in for the `delay_timer` timer task produced by a
successful `spawn_routine` / `spawn_async_routine`. -/
structure TimerTask where
  task_id : TaskID
deriving DecidableEq

/-- The `check_task_input!` macro: validates the name and the schedule,
returning early with `Err` on the first violation. Rust's
`String::is_empty` is equality with the empty string, and the rejected
duration condition is `duration.as_secs() <= 0`. -/
def check_task_input (task : Task) : Except String Unit :=
  if task.name = "" then .error "task name is empty"
  else
    match task.schedule with
    | .Once duration =>
        if duration.as_secs ≤ 0 then .error "task interval must be greater than 0"
        else .ok ()
    | .Interval duration =>
        if duration.as_secs ≤ 0 then .error "task interval must be greater than 0"
        else .ok ()
    | .Cron cron =>
        if cron = "" then .error "task cron is empty"
        else .ok ()

/-- The `build_task` function: fills in a defaulted id (`len + 1`) and a
defaulted `created_at` (`Utc::now().timestamp()`, here the `now`
parameter), then configures a timer-task builder with the task id, the
frequency derived from the schedule (whole seconds only for `Once` /
`Interval`, the raw candy cron string for `Cron`), and a
maximum-parallel-runnable number of 5. -/
def build_task (task : Task) (len : Nat) (now : Timestamp) : Task × TimerTaskBuilder :=
  let task :=
    { task with
      id := match task.id with
        | 0 => len + 1
        | _ => task.id
      created_at := if task.created_at = 0 then now else task.created_at }
  let builder : TimerTaskBuilder :=
    { task_id := task.id
      frequency :=
        match task.schedule with
        | .Cron cron => .CandyRepeated cron
        | .Interval duration => .RepeatedSeconds duration.as_secs
        | .Once duration => .OnceSeconds duration.as_secs
      maximum_parallel_runnable_num := some 5 }
  (task, builder)

/-- The per-item body of `set_task_state` after `find` has located the
entry: the `match state` block. Mutations happen only on the `Ok` path;
the `Err` paths (`result.ok_or(..)?`) return before touching the item. -/
def apply_state_change (item : Task) (state : TaskState) (result : Option TaskRunResult)
    (now : Timestamp) : Except String Task :=
  match state with
  | .Running => .ok { item with state := .Running }
  | .Idle =>
      match item.state with
      | .Running =>
          match result with
          | some r => .ok { item with last_run := some (now, r), state := .Idle }
          | none =>
              .error ("change task " ++ toString item.id ++
                " state from running to idle, but result is none")
      | _ => .ok { item with state := .Idle }
  | .Cancelled => .ok { item with state := .Cancelled }

/-- `TaskListOps::set_task_state`: find the first task with the given id
(`iter_mut().find(|t| t.id == task_id)`) and update it; `Err` if the id is
absent. An `Err` from the per-item body leaves the whole list unchanged,
which the explicit-state model renders by returning `Except.error`. -/
def set_task_state : List Task → TaskID → TaskState → Option TaskRunResult → Timestamp →
    Except String (List Task)
  | [], task_id, _, _, _ => .error ("task " ++ toString task_id ++ " not found")
  | t :: ts, task_id, state, result, now =>
      if t.id = task_id then
        match apply_state_change t state result now with
        | .ok t2 => .ok (t2 :: ts)
        | .error e => .error e
      else
        match set_task_state ts task_id state result now with
        | .ok ts2 => .ok (t :: ts2)
        | .error e => .error e

/-- Rust's `Vec::iter().find(|t| t.id == task_id)` on the task list; used
to state properties of the registry. -/
def find_task : List Task → TaskID → Option Task
  | [], _ => none
  | t :: ts, task_id => if t.id = task_id then some t else find_task ts task_id

/-- The `match res` converting a job outcome into a `TaskRunResult` inside
`wrap_job` / `wrap_async_job`. -/
def to_run_result : Except String Unit → TaskRunResult
  | .ok _ => .Ok
  | .error e => .Err e

/-- Log lines the `error!` call in `wrap_job` emits for a job outcome. -/
def wrap_job_logs : Except String Unit → List String
  | .ok _ => []
  | .error e => ["task error: " ++ e]

/-- The `wrap_job` execution wrapper: set the state to `Running`, invoke
`execute`, then set the state to `Idle` carrying the converted result
(logging on `Err`). The `Result`s of both `set_task_state` calls are
discarded; since an `Err` from `set_task_state` mutates nothing, the model
keeps the previous list on those paths. `now1`/`now2` are the clock reads
of the two `set_task_state` calls. Returns the new list and emitted logs. -/
def wrap_job (list : List Task) (task_id : TaskID) (job : Job) (now1 now2 : Timestamp) :
    List Task × List String :=
  let list1 :=
    match set_task_state list task_id .Running none now1 with
    | .ok l => l
    | .error _ => list
  let res := job.execute
  let logs := wrap_job_logs res
  let list2 :=
    match set_task_state list1 task_id .Idle (some (to_run_result res)) now2 with
    | .ok l => l
    | .error _ => list1
  (list2, logs)

/-- `TaskManager::add_task`: validate, build, store the executor, spawn
the timer routine, bind into the scheduler, and only then push into the
registry. `spawn` and `timer_add` are the external `delay_timer` effects;
`anyhow::Context` rewraps their errors with the shown messages. Every
`Err` path returns before `list.push(task)`, so failure leaves the
registry unchanged. -/
def add_task (list : List Task) (task : Task) (executor : TaskExecutor) (now : Timestamp)
    (spawn : TimerTaskBuilder → Except String TimerTask)
    (timer_add : TimerTask → Except String Unit) : Except String (List Task) :=
  match check_task_input task with
  | .error e => .error e
  | .ok _ =>
      let pair := build_task task list.length now
      let task := { pair.1 with executor := executor }
      let builder := pair.2
      match spawn builder with
      | .error _ => .error "failed to build a task"
      | .ok timer_task =>
          match timer_add timer_task with
          | .error _ => .error "failed to add a task to scheduler"
          | .ok _ => .ok (list ++ [task])

/-- Fixture: a task record with the given id, name, schedule, state and
creation time, no run history, and a trivially succeeding sync executor. -/
def mkTask (i : TaskID) (nm : String) (sch : TaskSchedule) (st : TaskState)
    (ca : Timestamp) : Task :=
  { id := i, name := nm, schedule := sch, state := st, last_run := none,
    next_run := none, executor := .Sync ⟨.ok ()⟩, created_at := ca }

/-- Fixture: a `delay_timer` spawn that always succeeds. -/
def spawn_ok : TimerTaskBuilder → Except String TimerTask :=
  fun b => .ok ⟨b.task_id⟩

/-- Fixture: a `delay_timer` spawn that always fails. -/
def spawn_fail : TimerTaskBuilder → Except String TimerTask :=
  fun _ => .error "out of resources"

/-- Fixture: a scheduler bind that always succeeds. -/
def timer_add_ok : TimerTask → Except String Unit :=
  fun _ => .ok ()

/-- Fixture: a scheduler bind that always fails. -/
def timer_add_fail : TimerTask → Except String Unit :=
  fun _ => .error "scheduler full"

/-! ### Structural lemmas about the state-update operation -/

/-- A successful `apply_state_change` only rewrites `state` and
`last_run`; every other field is kept, the new state is the requested one,
`last_run` is overwritten exactly on the `Idle`-from-`Running` path (with
the mandatory result and the current clock) and kept on every other
path. -/
theorem apply_state_change_fields (t u : Task) (st : TaskState) (res : Option TaskRunResult)
    (now : Timestamp) (h : apply_state_change t st res now = .ok u) :
    u.id = t.id ∧ u.name = t.name ∧ u.schedule = t.schedule ∧ u.next_run = t.next_run ∧
    u.executor = t.executor ∧ u.created_at = t.created_at ∧ u.state = st ∧
    (st = .Idle ∧ t.state = .Running → ∃ r, res = some r ∧ u.last_run = some (now, r)) ∧
    (¬(st = .Idle ∧ t.state = .Running) → u.last_run = t.last_run) := by
  cases st with
  | Running =>
      simp only [apply_state_change, Except.ok.injEq] at h
      subst h
      simp
  | Cancelled =>
      simp only [apply_state_change, Except.ok.injEq] at h
      subst h
      simp
  | Idle =>
      cases ht : t.state with
      | Running =>
          cases res with
          | none => simp [apply_state_change, ht] at h
          | some r =>
              simp only [apply_state_change, ht, Except.ok.injEq] at h
              subst h
              simp [ht]
      | Idle =>
          simp only [apply_state_change, ht, Except.ok.injEq] at h
          subst h
          simp [ht]
      | Cancelled =>
          simp only [apply_state_change, ht, Except.ok.injEq] at h
          subst h
          simp [ht]

/-- A successful `set_task_state` splits the list around the first task
carrying the id, and replaces exactly that entry by the result of
`apply_state_change`. -/
theorem set_task_state_ok_decomp (list l2 : List Task) (task_id : TaskID) (st : TaskState)
    (res : Option TaskRunResult) (now : Timestamp)
    (h : set_task_state list task_id st res now = .ok l2) :
    ∃ pre t u post,
      list = pre ++ t :: post ∧ l2 = pre ++ u :: post ∧
      (∀ v ∈ pre, v.id ≠ task_id) ∧ t.id = task_id ∧
      apply_state_change t st res now = .ok u := by
  induction list generalizing l2 with
  | nil => simp [set_task_state] at h
  | cons a as ih =>
      by_cases ha : a.id = task_id
      · rw [set_task_state, if_pos ha] at h
        cases hA : apply_state_change a st res now with
        | ok u =>
            rw [hA] at h
            cases h
            exact ⟨[], a, u, as, rfl, rfl, by simp, ha, hA⟩
        | error e => rw [hA] at h; cases h
      · rw [set_task_state, if_neg ha] at h
        cases hR : set_task_state as task_id st res now with
        | ok as2 =>
            rw [hR] at h
            cases h
            obtain ⟨pre, t, u, post, h1, h2, h3, h4, h5⟩ := ih as2 hR
            exact ⟨a :: pre, t, u, post, by simp [h1], by simp [h2],
              by simpa [ha] using h3, h4, h5⟩
        | error e => rw [hR] at h; cases h

/-- On a list whose front contains no task with the id, `set_task_state`
acts on the marked entry. -/
theorem set_task_state_split (pre post : List Task) (t : Task) (task_id : TaskID)
    (st : TaskState) (res : Option TaskRunResult) (now : Timestamp)
    (hpre : ∀ v ∈ pre, v.id ≠ task_id) (ht : t.id = task_id) :
    set_task_state (pre ++ t :: post) task_id st res now =
      match apply_state_change t st res now with
      | .ok u => .ok (pre ++ u :: post)
      | .error e => .error e := by
  induction pre with
  | nil =>
      rw [List.nil_append, set_task_state, if_pos ht]
      cases apply_state_change t st res now <;> simp
  | cons a as ih =>
      have ha : a.id ≠ task_id := hpre a (by simp)
      have has : ∀ v ∈ as, v.id ≠ task_id := fun v hv => hpre v (by simp [hv])
      rw [List.cons_append, set_task_state, if_neg ha, ih has]
      cases apply_state_change t st res now <;> simp

/-- `find_task` returns the marked entry when nothing in front of it
carries the id. -/
theorem find_task_split (pre post : List Task) (u : Task) (task_id : TaskID)
    (hpre : ∀ v ∈ pre, v.id ≠ task_id) (hu : u.id = task_id) :
    find_task (pre ++ u :: post) task_id = some u := by
  induction pre with
  | nil => rw [List.nil_append, find_task, if_pos hu]
  | cons a as ih =>
      have ha : a.id ≠ task_id := hpre a (by simp)
      have has : ∀ v ∈ as, v.id ≠ task_id := fun v hv => hpre v (by simp [hv])
      rw [List.cons_append, find_task, if_neg ha, ih has]

/-- A successful `find_task` splits the list around the first entry
carrying the id. -/
theorem find_task_decomp (list : List Task) (task_id : TaskID) (t : Task)
    (h : find_task list task_id = some t) :
    ∃ pre post, list = pre ++ t :: post ∧ (∀ v ∈ pre, v.id ≠ task_id) ∧ t.id = task_id := by
  induction list with
  | nil => simp [find_task] at h
  | cons a as ih =>
      by_cases ha : a.id = task_id
      · rw [find_task, if_pos ha] at h
        cases h
        exact ⟨[], as, rfl, by simp, ha⟩
      · rw [find_task, if_neg ha] at h
        obtain ⟨pre, post, h1, h2, h3⟩ := ih h
        exact ⟨a :: pre, post, by simp [h1], by simpa [ha] using h2, h3⟩

/-- On a list whose front contains no task with the id, `wrap_job`
replaces the marked entry by the fully updated record: state `Idle`,
`last_run` holding the second clock read and the converted job outcome,
and emits exactly the logs of that outcome. -/
theorem wrap_job_split (pre post : List Task) (t : Task) (task_id : TaskID) (j : Job)
    (now1 now2 : Timestamp) (hpre : ∀ v ∈ pre, v.id ≠ task_id) (ht : t.id = task_id) :
    wrap_job (pre ++ t :: post) task_id j now1 now2 =
      (pre ++ { t with state := .Idle, last_run := some (now2, to_run_result j.execute) } :: post,
        wrap_job_logs j.execute) := by
  have h1 : set_task_state (pre ++ t :: post) task_id .Running none now1
      = .ok (pre ++ { t with state := .Running } :: post) := by
    rw [set_task_state_split pre post t task_id .Running none now1 hpre ht]
    rfl
  have h2 : set_task_state (pre ++ { t with state := .Running } :: post) task_id .Idle
      (some (to_run_result j.execute)) now2
      = .ok (pre ++ { t with state := .Idle, last_run := some (now2, to_run_result j.execute) } :: post) := by
    rw [set_task_state_split pre post { t with state := .Running } task_id .Idle
      (some (to_run_result j.execute)) now2 hpre ht]
    rfl
  simp [wrap_job, h1, h2]

/-! ### Claim theorems -/

/-- C1, counterexample: the claim says the state-update operation never
moves a task's state from `Cancelled` back to `Idle`. On a concrete
registry holding one cancelled task, the completion write
`set_task_state _ _ Idle (some Ok)` does discard the result (`last_run`
stays `none`) but sets the state to `Idle`, so the output differs from the
claimed unchanged registry. -/
theorem C1_counterexample :
    set_task_state [mkTask 1 "c" (.Interval (Duration.from_secs 1)) .Cancelled 1] 1 .Idle (some .Ok) 50
      = .ok [{ mkTask 1 "c" (.Interval (Duration.from_secs 1)) .Cancelled 1 with state := .Idle }] ∧
    set_task_state [mkTask 1 "c" (.Interval (Duration.from_secs 1)) .Cancelled 1] 1 .Idle (some .Ok) 50
      ≠ .ok [mkTask 1 "c" (.Interval (Duration.from_secs 1)) .Cancelled 1] :=
  ⟨rfl, by decide⟩

/-- C1, amended: when an in-flight execution finishes while the task's
state is already `Cancelled`, the completion write does not record the
result in `last_run` (the matched current state is not `Running`), but it
does set the state back to `Idle`: `Cancelled` is not terminal for the
`state` field. -/
theorem C1_cancelled_completion (list : List Task) (task_id : TaskID) (r : TaskRunResult)
    (now : Timestamp) (t : Task) (h : find_task list task_id = some t)
    (hc : t.state = .Cancelled) :
    ∃ l2, set_task_state list task_id .Idle (some r) now = .ok l2 ∧
      find_task l2 task_id = some { t with state := .Idle } := by
  obtain ⟨pre, post, hl, hpre, hid⟩ := find_task_decomp list task_id t h
  subst hl
  have ha : apply_state_change t .Idle (some r) now = .ok { t with state := .Idle } := by
    simp [apply_state_change, hc]
  rw [set_task_state_split pre post t task_id .Idle (some r) now hpre hid, ha]
  exact ⟨_, rfl, find_task_split pre post _ task_id hpre hid⟩

/-- C1, witness for the amended theorem at a concrete cancelled task. -/
theorem C1_cancelled_completion_witness :
    ∃ l2, set_task_state [mkTask 3 "c" (.Cron "0 0 * * *") .Cancelled 1] 3 .Idle
        (some (.Err "late")) 70 = .ok l2 ∧
      find_task l2 3 = some { mkTask 3 "c" (.Cron "0 0 * * *") .Cancelled 1 with state := .Idle } :=
  C1_cancelled_completion [mkTask 3 "c" (.Cron "0 0 * * *") .Cancelled 1] 3 (.Err "late") 70
    (mkTask 3 "c" (.Cron "0 0 * * *") .Cancelled 1) rfl rfl

/-- C2, counterexample: the claim says a firing that finds the task
already `Running` is skipped entirely, with `execute` not invoked. On a
concrete registry holding one `Running` task and a job failing with
"boom", `wrap_job` still runs the job: the outcome is recorded in
`last_run`, the state is rewritten, and the error log is emitted, so the
output differs from the untouched registry with no logs that a skip would
produce. -/
theorem C2_counterexample :
    wrap_job [mkTask 1 "r" (.Interval (Duration.from_secs 1)) .Running 1] 1 ⟨.error "boom"⟩ 10 20
      = ([{ mkTask 1 "r" (.Interval (Duration.from_secs 1)) .Running 1 with state := .Idle, last_run := some (20, .Err "boom") }],
        ["task error: boom"]) ∧
    wrap_job [mkTask 1 "r" (.Interval (Duration.from_secs 1)) .Running 1] 1 ⟨.error "boom"⟩ 10 20
      ≠ ([mkTask 1 "r" (.Interval (Duration.from_secs 1)) .Running 1], []) :=
  ⟨rfl, by decide⟩

/-- C2, amended: the wrapped execution callback performs no state check
before running: even when the task's current state is already `Running`,
the firing is not skipped — the job's outcome is recorded in `last_run`
with the completion clock and the state ends at `Idle`. Same-task mutual
exclusion is not enforced by the wrapper. -/
theorem C2_no_skip_check (list : List Task) (task_id : TaskID) (j : Job)
    (now1 now2 : Timestamp) (t : Task) (h : find_task list task_id = some t)
    (_hr : t.state = .Running) :
    find_task (wrap_job list task_id j now1 now2).1 task_id
      = some { t with state := .Idle, last_run := some (now2, to_run_result j.execute) } ∧
    (wrap_job list task_id j now1 now2).2 = wrap_job_logs j.execute := by
  obtain ⟨pre, post, hl, hpre, hid⟩ := find_task_decomp list task_id t h
  subst hl
  rw [wrap_job_split pre post t task_id j now1 now2 hpre hid]
  exact ⟨find_task_split pre post _ task_id hpre hid, rfl⟩

/-- C2, witness for the amended theorem at a concrete running task. -/
theorem C2_no_skip_check_witness :
    find_task (wrap_job [mkTask 4 "r" (.Once (Duration.from_secs 2)) .Running 3] 4 ⟨.ok ()⟩ 11 12).1 4
      = some { mkTask 4 "r" (.Once (Duration.from_secs 2)) .Running 3 with state := .Idle, last_run := some (12, .Ok) } ∧
    (wrap_job [mkTask 4 "r" (.Once (Duration.from_secs 2)) .Running 3] 4 ⟨.ok ()⟩ 11 12).2 = [] :=
  C2_no_skip_check [mkTask 4 "r" (.Once (Duration.from_secs 2)) .Running 3] 4 ⟨.ok ()⟩ 11 12
    (mkTask 4 "r" (.Once (Duration.from_secs 2)) .Running 3) rfl rfl

/-- C6: when a firing's `execute` returns `Err(msg)`, the wrapper records
`last_run = (now, Err msg)`, moves the state to `Idle`, emits exactly the
"task error" log line, and keeps the task in the registry (same length,
still found by its id). The wrapper's return type carries no error, so the
failure never propagates out of it. -/
theorem C6_job_error_recorded (list : List Task) (task_id : TaskID) (msg : String)
    (now1 now2 : Timestamp) (t : Task) (h : find_task list task_id = some t) :
    ∃ l2, wrap_job list task_id ⟨.error msg⟩ now1 now2 = (l2, ["task error: " ++ msg]) ∧
      find_task l2 task_id = some { t with state := .Idle, last_run := some (now2, .Err msg) } ∧
      l2.length = list.length := by
  obtain ⟨pre, post, hl, hpre, hid⟩ := find_task_decomp list task_id t h
  subst hl
  rw [wrap_job_split pre post t task_id ⟨.error msg⟩ now1 now2 hpre hid]
  exact ⟨_, rfl, find_task_split pre post _ task_id hpre hid, by simp⟩

/-- C6, witness at a concrete idle task and a job failing with "boom". -/
theorem C6_job_error_recorded_witness :
    ∃ l2, wrap_job [mkTask 7 "j" (.Interval (Duration.from_secs 1)) .Idle 2] 7 ⟨.error "boom"⟩ 30 31
        = (l2, ["task error: " ++ "boom"]) ∧
      find_task l2 7 = some { mkTask 7 "j" (.Interval (Duration.from_secs 1)) .Idle 2 with state := .Idle, last_run := some (31, .Err "boom") } ∧
      l2.length = [mkTask 7 "j" (.Interval (Duration.from_secs 1)) .Idle 2].length :=
  C6_job_error_recorded [mkTask 7 "j" (.Interval (Duration.from_secs 1)) .Idle 2] 7 "boom" 30 31
    (mkTask 7 "j" (.Interval (Duration.from_secs 1)) .Idle 2) rfl

/-- C10: a successful `set_task_state` rewrites exactly one registry
entry — the first task carrying the id — and leaves every task before and
after it untouched; on that entry only `state` and `last_run` may change,
`last_run` being overwritten exactly when the requested state is `Idle`
and the current state is `Running` (then it holds the clock and the
mandatory result) and kept unchanged in every other case. -/
theorem C10_state_update_frame (list l2 : List Task) (task_id : TaskID) (st : TaskState)
    (res : Option TaskRunResult) (now : Timestamp)
    (h : set_task_state list task_id st res now = .ok l2) :
    ∃ pre t u post,
      list = pre ++ t :: post ∧ l2 = pre ++ u :: post ∧
      (∀ v ∈ pre, v.id ≠ task_id) ∧ t.id = task_id ∧
      u.id = t.id ∧ u.name = t.name ∧ u.schedule = t.schedule ∧ u.next_run = t.next_run ∧
      u.executor = t.executor ∧ u.created_at = t.created_at ∧ u.state = st ∧
      (st = .Idle ∧ t.state = .Running → ∃ r, res = some r ∧ u.last_run = some (now, r)) ∧
      (¬(st = .Idle ∧ t.state = .Running) → u.last_run = t.last_run) := by
  obtain ⟨pre, t, u, post, h1, h2, h3, h4, h5⟩ :=
    set_task_state_ok_decomp list l2 task_id st res now h
  obtain ⟨f1, f2, f3, f4, f5, f6, f7, f8, f9⟩ := apply_state_change_fields t u st res now h5
  exact ⟨pre, t, u, post, h1, h2, h3, h4, f1, f2, f3, f4, f5, f6, f7, f8, f9⟩

/-- C10, witness: the frame property instantiated on a concrete two-task
registry where task 2 is set to `Cancelled`. -/
theorem C10_state_update_frame_witness :
    ∃ pre t u post,
      [mkTask 1 "x" (.Interval (Duration.from_secs 1)) .Idle 1,
        mkTask 2 "y" (.Interval (Duration.from_secs 1)) .Idle 1] = pre ++ t :: post ∧
      [mkTask 1 "x" (.Interval (Duration.from_secs 1)) .Idle 1,
        { mkTask 2 "y" (.Interval (Duration.from_secs 1)) .Idle 1 with state := .Cancelled }] = pre ++ u :: post ∧
      (∀ v ∈ pre, v.id ≠ 2) ∧ t.id = 2 ∧
      u.id = t.id ∧ u.name = t.name ∧ u.schedule = t.schedule ∧ u.next_run = t.next_run ∧
      u.executor = t.executor ∧ u.created_at = t.created_at ∧ u.state = .Cancelled ∧
      (TaskState.Cancelled = .Idle ∧ t.state = .Running →
        ∃ r, (none : Option TaskRunResult) = some r ∧ u.last_run = some (40, r)) ∧
      (¬(TaskState.Cancelled = .Idle ∧ t.state = .Running) → u.last_run = t.last_run) :=
  C10_state_update_frame
    [mkTask 1 "x" (.Interval (Duration.from_secs 1)) .Idle 1,
      mkTask 2 "y" (.Interval (Duration.from_secs 1)) .Idle 1]
    [mkTask 1 "x" (.Interval (Duration.from_secs 1)) .Idle 1,
      { mkTask 2 "y" (.Interval (Duration.from_secs 1)) .Idle 1 with state := .Cancelled }]
    2 .Cancelled none 40 rfl

/-- C3: a task with an empty name, a `Once`/`Interval` schedule of
duration zero, or an empty cron expression makes `add_task` fail with the
corresponding validation message, for every possible timing-engine
behaviour — the check happens before the builder is spawned or the
scheduler touched, and the error return leaves the registry unchanged (no
entry pushed, so no id consumed). -/
theorem C3_validation_rejects (list : List Task) (task : Task) (executor : TaskExecutor)
    (now : Timestamp) (spawn : TimerTaskBuilder → Except String TimerTask)
    (timer_add : TimerTask → Except String Unit)
    (h : task.name = "" ∨
      (∃ d, (task.schedule = .Once d ∨ task.schedule = .Interval d) ∧ d = Duration.from_secs 0) ∨
      task.schedule = .Cron "") :
    ∃ e, add_task list task executor now spawn timer_add = .error e ∧
      (e = "task name is empty" ∨ e = "task interval must be greater than 0" ∨
        e = "task cron is empty") := by
  have hchk : ∃ e, check_task_input task = .error e ∧
      (e = "task name is empty" ∨ e = "task interval must be greater than 0" ∨
        e = "task cron is empty") := by
    by_cases hn : task.name = ""
    · exact ⟨"task name is empty", by simp [check_task_input, hn], Or.inl rfl⟩
    · rcases h with h | ⟨d, hsch, hd⟩ | hcron
      · exact absurd h hn
      · subst hd
        rcases hsch with hs | hs <;>
          exact ⟨"task interval must be greater than 0",
            by simp [check_task_input, hn, hs, Duration.as_secs, Duration.from_secs],
            Or.inr (Or.inl rfl)⟩
      · exact ⟨"task cron is empty", by simp [check_task_input, hn, hcron], Or.inr (Or.inr rfl)⟩
  obtain ⟨e, he, hes⟩ := hchk
  exact ⟨e, by simp [add_task, he], hes⟩

/-- C3, witness at a concrete task with an empty name. -/
theorem C3_validation_rejects_witness :
    ∃ e, add_task [] (mkTask 0 "" (.Interval (Duration.from_secs 1)) .Idle 0) (.Sync ⟨.ok ()⟩) 9
        spawn_ok timer_add_ok = .error e ∧
      (e = "task name is empty" ∨ e = "task interval must be greater than 0" ∨
        e = "task cron is empty") :=
  C3_validation_rejects [] (mkTask 0 "" (.Interval (Duration.from_secs 1)) .Idle 0)
    (.Sync ⟨.ok ()⟩) 9 spawn_ok timer_add_ok (Or.inl rfl)

/-- C4, counterexample: the claim says every strictly positive duration
passes the schedule check. The strictly positive duration of 100
milliseconds (zero whole seconds, a positive nanosecond part) is rejected
by `check_task_input`, because the check compares `as_secs`, the
whole-second part, with zero. -/
theorem C4_counterexample :
    check_task_input (mkTask 1 "t" (.Once (Duration.from_millis 100)) .Idle 1)
      = .error "task interval must be greater than 0" ∧
    0 < (Duration.from_millis 100).nanos := by decide

/-- C4, amended: for a task with a non-empty name and a `Once` or
`Interval` schedule, validation passes exactly when the duration's
whole-second part is at least 1; every duration below one second —
including strictly positive sub-second ones — is rejected like zero. -/
theorem C4_whole_second_check (task : Task) (d : Duration) (hn : task.name ≠ "")
    (hs : task.schedule = .Once d ∨ task.schedule = .Interval d) :
    (check_task_input task = .ok () ↔ 1 ≤ d.as_secs) := by
  rcases hs with hs | hs <;>
    simp only [check_task_input, if_neg hn, hs] <;>
    by_cases hz : d.as_secs ≤ 0 <;>
    simp [hz] <;>
    omega

/-- C4, witness: the amended equivalence at a concrete 2-second task. -/
theorem C4_whole_second_check_witness :
    check_task_input (mkTask 1 "t" (.Once (Duration.from_secs 2)) .Idle 1) = .ok ()
      ↔ 1 ≤ (Duration.from_secs 2).as_secs :=
  C4_whole_second_check (mkTask 1 "t" (.Once (Duration.from_secs 2)) .Idle 1)
    (Duration.from_secs 2) (by decide) (Or.inl rfl)

/-- A successful `add_task` appends exactly one entry: the input task
after `build_task` defaulting, with the executor stored. -/
theorem add_task_ok_shape (list l2 : List Task) (task : Task) (executor : TaskExecutor)
    (now : Timestamp) (spawn : TimerTaskBuilder → Except String TimerTask)
    (timer_add : TimerTask → Except String Unit)
    (h : add_task list task executor now spawn timer_add = .ok l2) :
    l2 = list ++ [{ (build_task task list.length now).1 with executor := executor }] := by
  cases hc : check_task_input task with
  | error e => simp [add_task, hc] at h
  | ok u =>
      cases hs : spawn (build_task task list.length now).2 with
      | error e => simp [add_task, hc, hs] at h
      | ok tt =>
          cases ht : timer_add tt with
          | error e => simp [add_task, hc, hs, ht] at h
          | ok v =>
              simp only [add_task, hc, hs, ht, Except.ok.injEq] at h
              exact h.symm

/-- C5, counterexample: the claim says a manager-assigned id is never
reused by any later registration even when other tasks carry
caller-supplied non-zero ids. Register a task with caller-supplied id 2
into an empty registry, then register a task with id 0: the auto-assigned
id is `len + 1 = 2`, colliding with the existing task's id. -/
theorem C5_counterexample :
    add_task [] (mkTask 2 "a" (.Interval (Duration.from_secs 1)) .Idle 1) (.Sync ⟨.ok ()⟩) 5
        spawn_ok timer_add_ok
      = .ok [mkTask 2 "a" (.Interval (Duration.from_secs 1)) .Idle 1] ∧
    add_task [mkTask 2 "a" (.Interval (Duration.from_secs 1)) .Idle 1]
        (mkTask 0 "b" (.Interval (Duration.from_secs 1)) .Idle 1) (.Sync ⟨.ok ()⟩) 6
        spawn_ok timer_add_ok
      = .ok [mkTask 2 "a" (.Interval (Duration.from_secs 1)) .Idle 1,
          mkTask 2 "b" (.Interval (Duration.from_secs 1)) .Idle 1] ∧
    (mkTask 2 "a" (.Interval (Duration.from_secs 1)) .Idle 1).id
      = (mkTask 2 "b" (.Interval (Duration.from_secs 1)) .Idle 1).id :=
  ⟨rfl, rfl, rfl⟩

/-- C5, amended: an `add` with id 0 assigns `registry length + 1`, so two
successive successful id-0 adds receive the distinct ids `len + 1` and
`len + 2` (strictly increasing while every add uses auto-assignment); the
assigned id can however collide with a caller-supplied non-zero id already
in the registry. A caller-supplied non-zero id and a non-zero `created_at`
are preserved unchanged. -/
theorem C5_id_assignment :
    (∀ (list : List Task) (t1 t2 : Task) (e1 e2 : TaskExecutor) (n1 n2 : Timestamp)
      (sp1 sp2 : TimerTaskBuilder → Except String TimerTask)
      (ta1 ta2 : TimerTask → Except String Unit) (l1 l2 : List Task),
      t1.id = 0 → t2.id = 0 →
      add_task list t1 e1 n1 sp1 ta1 = .ok l1 →
      add_task l1 t2 e2 n2 sp2 ta2 = .ok l2 →
      ∃ u1 u2, l1 = list ++ [u1] ∧ l2 = l1 ++ [u2] ∧
        u1.id = list.length + 1 ∧ u2.id = list.length + 2 ∧ u1.id ≠ u2.id) ∧
    (∀ (list : List Task) (t : Task) (e : TaskExecutor) (n : Timestamp)
      (sp : TimerTaskBuilder → Except String TimerTask)
      (ta : TimerTask → Except String Unit) (l2 : List Task),
      t.id ≠ 0 → t.created_at ≠ 0 →
      add_task list t e n sp ta = .ok l2 →
      ∃ u, l2 = list ++ [u] ∧ u.id = t.id ∧ u.created_at = t.created_at) := by
  constructor
  · intro list t1 t2 e1 e2 n1 n2 sp1 sp2 ta1 ta2 l1 l2 h1 h2 ha hb
    have sa := add_task_ok_shape list l1 t1 e1 n1 sp1 ta1 ha
    have sb := add_task_ok_shape l1 l2 t2 e2 n2 sp2 ta2 hb
    have hlen : l1.length = list.length + 1 := by rw [sa]; simp
    refine ⟨_, _, sa, sb, ?_, ?_, ?_⟩
    · simp [build_task, h1]
    · simp [build_task, h2, hlen]
    · simp [build_task, h1, h2, hlen]
  · intro list t e n sp ta l2 hid hca h
    refine ⟨_, add_task_ok_shape list l2 t e n sp ta h, ?_, ?_⟩
    · cases ht : t.id with
      | zero => exact absurd ht hid
      | succ k => simp [build_task, ht]
    · simp [build_task, hca]

/-- C5, witness: two id-0 tasks added in sequence into an empty registry
receive the distinct ids 1 and 2. -/
theorem C5_id_assignment_witness :
    ∃ u1 u2, [mkTask 1 "a" (.Interval (Duration.from_secs 1)) .Idle 5] = [] ++ [u1] ∧
      [mkTask 1 "a" (.Interval (Duration.from_secs 1)) .Idle 5,
        mkTask 2 "b" (.Interval (Duration.from_secs 1)) .Idle 6]
        = [mkTask 1 "a" (.Interval (Duration.from_secs 1)) .Idle 5] ++ [u2] ∧
      u1.id = 1 ∧ u2.id = 2 ∧ u1.id ≠ u2.id :=
  C5_id_assignment.1 [] (mkTask 0 "a" (.Interval (Duration.from_secs 1)) .Idle 0)
    (mkTask 0 "b" (.Interval (Duration.from_secs 1)) .Idle 0)
    (.Sync ⟨.ok ()⟩) (.Sync ⟨.ok ()⟩) 5 6 spawn_ok spawn_ok timer_add_ok timer_add_ok
    [mkTask 1 "a" (.Interval (Duration.from_secs 1)) .Idle 5]
    [mkTask 1 "a" (.Interval (Duration.from_secs 1)) .Idle 5,
      mkTask 2 "b" (.Interval (Duration.from_secs 1)) .Idle 6]
    rfl rfl rfl rfl

/-- C7: when validation passes but the timing-engine binding fails —
either `spawn_routine` fails to build the timer task or the scheduler's
`add_task` rejects it — the manager's `add_task` returns the
corresponding error; the registry push is unreachable on these paths, so
no partial registration is observable. -/
theorem C7_add_atomic_on_engine_failure (list : List Task) (task : Task)
    (executor : TaskExecutor) (now : Timestamp)
    (spawn : TimerTaskBuilder → Except String TimerTask)
    (timer_add : TimerTask → Except String Unit)
    (hv : check_task_input task = .ok ())
    (h : (∃ e, spawn (build_task task list.length now).2 = .error e) ∨
      (∃ tt e, spawn (build_task task list.length now).2 = .ok tt ∧ timer_add tt = .error e)) :
    ∃ e2, add_task list task executor now spawn timer_add = .error e2 ∧
      (e2 = "failed to build a task" ∨ e2 = "failed to add a task to scheduler") := by
  rcases h with ⟨e, he⟩ | ⟨tt, e, hs, ht⟩
  · exact ⟨_, by simp [add_task, hv, he], Or.inl rfl⟩
  · exact ⟨_, by simp [add_task, hv, hs, ht], Or.inr rfl⟩

/-- C7, witness: a valid task whose spawn fails makes `add_task` return
the build error. -/
theorem C7_add_atomic_on_engine_failure_witness :
    ∃ e2, add_task [] (mkTask 1 "u" (.Once (Duration.from_secs 3)) .Idle 1) (.Sync ⟨.ok ()⟩) 4
        spawn_fail timer_add_ok = .error e2 ∧
      (e2 = "failed to build a task" ∨ e2 = "failed to add a task to scheduler") :=
  C7_add_atomic_on_engine_failure [] (mkTask 1 "u" (.Once (Duration.from_secs 3)) .Idle 1)
    (.Sync ⟨.ok ()⟩) 4 spawn_fail timer_add_ok rfl (Or.inl ⟨"out of resources", rfl⟩)

end Nyanpasu
